import Mathlib

/-!
Verification of the ASI Tiger property-binding and serial-transaction engine
(Micro-Manager device adapters).  The definitions below are a shallow
embedding of the C++ source: the mixin property handlers of
`MixinInput.h`, `MixinSingleAxis.h`, `MixinRingBuffer.h`, and the
`CXYStage` / `CPMT` handlers of `ASIXYStage.cpp` / `ASIPmt.c`.

Machine `long` values are modelled as `Int`, machine `double` values as `ℚ`.
The serial channel is modelled as a mock hub: a total response function from
command strings to answer strings, together with a log of issued commands.
-/

namespace ASITiger

/-- Device return codes used by the handlers (MMDevice error codes). -/
inductive RC where
  | ok
  | invalidPropertyValue
  | serialCommandFailed
  | serialInvalidResponse
deriving DecidableEq, Repr

/-- Numeric value of a decimal digit character. -/
def digitVal (c : Char) : Nat := c.toNat - 48

/-- Accumulate a list of decimal digit characters into a `Nat`. -/
def digitsToNat (ds : List Char) : Nat :=
  ds.foldl (fun acc c => 10 * acc + digitVal c) 0

/-- Parse an optionally signed run of decimal digits at the head of the
character list, C `atol`-style: trailing junk is ignored, and `none` is
returned when no digit is found. -/
def parseIntPrefix (cs : List Char) : Option Int :=
  let core : Bool → List Char → Option Int := fun neg rest =>
    let ds := rest.takeWhile Char.isDigit
    if ds.isEmpty then none
    else some (if neg then -(digitsToNat ds : Int) else (digitsToNat ds : Int))
  match cs with
  | '-' :: rest => core true rest
  | '+' :: rest => core false rest
  | _ => core false cs

/-- Parse an optionally signed decimal number (with an optional fractional
part) at the head of the character list, C `atof`-style. -/
def parseRatPrefix (cs : List Char) : Option ℚ :=
  let core : Bool → List Char → Option ℚ := fun neg rest =>
    let ds := rest.takeWhile Char.isDigit
    if ds.isEmpty then none
    else
      let ipart : ℚ := (digitsToNat ds : ℚ)
      let rest2 := rest.drop ds.length
      let v : ℚ :=
        match rest2 with
        | '.' :: frac =>
          let fs := frac.takeWhile Char.isDigit
          ipart + (digitsToNat fs : ℚ) / ((10 : ℚ) ^ fs.length)
        | _ => ipart
      some (if neg then -v else v)
  match cs with
  | '-' :: rest => core true rest
  | '+' :: rest => core false rest
  | _ => core false cs

/-- The characters of `s` after the first `=` sign, `none` when `s` has
no `=`.  This mirrors `ASIHub::ParseAnswerAfterEquals`, which interprets
the text following the `=` of the captured serial answer. -/
def afterEquals (s : String) : Option (List Char) :=
  match s.toList.dropWhile (fun c => c ≠ '=') with
  | '=' :: rest => some rest
  | _ => none

/-- `ParseAnswerAfterEquals` for `long` destinations: the integer after the
first `=` of the answer. -/
def parseLongAfterEquals (s : String) : Option Int :=
  (afterEquals s).bind parseIntPrefix

/-- `ParseAnswerAfterEquals` for `double` destinations: the decimal number
after the first `=` of the answer. -/
def parseRatAfterEquals (s : String) : Option ℚ :=
  (afterEquals s).bind parseRatPrefix

/-- C `atol`: skip leading whitespace, parse an optionally signed digit
run, return 0 when no digit is found. -/
def atol (s : String) : Int :=
  let cs := s.toList.dropWhile (fun c => c = ' ' ∨ c = '\t' ∨ c = '\n' ∨ c = '\r')
  match parseIntPrefix cs with
  | some v => v
  | none => 0

/-- Mock hub: the response the controller gives to each command string. -/
structure Hub where
  respond : String → String

/-- The observable effects of one handler invocation on the shared serial
channel: the commands issued (oldest first) and the last raw answer. -/
structure Chan where
  cmds : List String
  lastAnswer : String
deriving DecidableEq, Repr

/-- A channel on which no command has been issued yet. -/
def Chan.empty : Chan := ⟨[], ""⟩

/-- Prefix test on the underlying character lists (the string prefix
check of the source, stated over the character model so that proofs can
evaluate it). -/
def strHasPrefix (expected s : String) : Bool :=
  expected.toList.isPrefixOf s.toList

/-- `ASIHub::QueryCommandVerify`: send the command, capture the raw answer,
and check that the answer begins with the expected prefix. -/
def queryCommandVerify (hub : Hub) (ch : Chan) (cmd expected : String) : RC × Chan :=
  let ans := hub.respond cmd
  let ch2 : Chan := ⟨ch.cmds ++ [cmd], ans⟩
  (if strHasPrefix expected ans then RC.ok else RC.serialCommandFailed, ch2)

/-!
String constants.  These are declared in the repository header `ASITiger.h`,
which is not among the source files here; only their identities (each
constant is a fixed, pairwise distinct string) matter to the handlers, so
they are given representative values.
-/

/-- Modelled from the spec: property-name constant of `ASITiger.h`. -/
def g_RB_ModePropertyName : String := "RingBufferMode"

/-- Modelled from the spec: property-name constant of `ASITiger.h`. -/
def g_RB_DelayPropertyName : String := "RingBufferDelayBetweenPoints"

/-- Modelled from the spec: property-name constant of `ASITiger.h`. -/
def g_RB_TriggerPropertyName : String := "RingBufferTrigger"

/-- Modelled from the spec: property-name constant of `ASITiger.h`. -/
def g_RB_AutoplayRunningPropertyName : String := "RingBufferAutoplayRunning"

/-- Modelled from the spec: property-name constant of `ASITiger.h`. -/
def g_UseSequencePropertyName : String := "UseSequence"

/-- Modelled from the spec: ring-buffer mode enum string of `ASITiger.h`. -/
def g_RB_OnePoint_1 : String := "1 - One Point"

/-- Modelled from the spec: ring-buffer mode enum string of `ASITiger.h`. -/
def g_RB_PlayOnce_2 : String := "2 - Play Once"

/-- Modelled from the spec: ring-buffer mode enum string of `ASITiger.h`. -/
def g_RB_PlayRepeat_3 : String := "3 - Repeat"

/-- Modelled from the spec: joystick input enum string of `ASITiger.h`. -/
def g_JSCode_0 : String := "0 - none"

/-- Modelled from the spec: joystick input enum string of `ASITiger.h`. -/
def g_JSCode_1 : String := "1 - factory default"

/-- Modelled from the spec: joystick input enum string of `ASITiger.h`. -/
def g_JSCode_2 : String := "2 - joystick X"

/-- Modelled from the spec: joystick input enum string of `ASITiger.h`. -/
def g_JSCode_3 : String := "3 - joystick Y"

/-- Modelled from the spec: joystick input enum string of `ASITiger.h`. -/
def g_JSCode_22 : String := "22 - right wheel"

/-- Modelled from the spec: joystick input enum string of `ASITiger.h`. -/
def g_JSCode_23 : String := "23 - left wheel"

/-- Modelled from the spec: single-axis mode enum string of `ASITiger.h`. -/
def g_SAMode_0 : String := "0 - Disabled"

/-- Modelled from the spec: single-axis mode enum string of `ASITiger.h`. -/
def g_SAMode_1 : String := "1 - Enabled"

/-- Modelled from the spec: single-axis mode enum string of `ASITiger.h`. -/
def g_SAMode_2 : String := "2 - Armed for TTL trigger"

/-- Modelled from the spec: single-axis mode enum string of `ASITiger.h`. -/
def g_SAMode_3 : String := "3 - Enabled with axes synced"

/-- Modelled from the spec: single-axis pattern enum string of `ASITiger.h`. -/
def g_SAPattern_0 : String := "0 - Ramp"

/-- Modelled from the spec: single-axis pattern enum string of `ASITiger.h`. -/
def g_SAPattern_1 : String := "1 - Triangle"

/-- Modelled from the spec: single-axis pattern enum string of `ASITiger.h`. -/
def g_SAPattern_2 : String := "2 - Square"

/-- Modelled from the spec: single-axis pattern enum string of `ASITiger.h`. -/
def g_SAPattern_3 : String := "3 - Sine"

/-- Modelled from the spec: single-axis clock source enum string. -/
def g_SAClkSrc_0 : String := "internal 4kHz clock"

/-- Modelled from the spec: single-axis clock source enum string. -/
def g_SAClkSrc_1 : String := "external clock"

/-- Modelled from the spec: single-axis clock polarity enum string. -/
def g_SAClkPol_0 : String := "positive edge"

/-- Modelled from the spec: single-axis clock polarity enum string. -/
def g_SAClkPol_1 : String := "negative edge"

/-- Modelled from the spec: single-axis TTL output enum string. -/
def g_SATTLOut_0 : String := "disabled"

/-- Modelled from the spec: single-axis TTL output enum string. -/
def g_SATTLOut_1 : String := "enabled"

/-- Modelled from the spec: save-settings enum string of `ASITiger.h`. -/
def g_SaveSettingsOrig : String := "no action"

/-- Modelled from the spec: save-settings enum string of `ASITiger.h`. -/
def g_SaveSettingsX : String := "reset defaults"

/-- Modelled from the spec: save-settings enum string of `ASITiger.h`. -/
def g_SaveSettingsY : String := "restore factory settings"

/-- Modelled from the spec: save-settings enum string of `ASITiger.h`. -/
def g_SaveSettingsZ : String := "save settings now"

/-- Modelled from the spec: save-settings enum string of `ASITiger.h`. -/
def g_SaveSettingsZJoystick : String := "save settings incl joystick"

/-- Modelled from the spec: save-settings enum string of `ASITiger.h`. -/
def g_SaveSettingsDone : String := "done"

/-- Modelled from the spec: trigger-state enum string of `ASITiger.h`. -/
def g_IdleState : String := "Not done"

/-- Modelled from the spec: trigger-state enum string of `ASITiger.h`. -/
def g_DoItState : String := "Do it"

/-- Modelled from the spec: trigger-state enum string of `ASITiger.h`. -/
def g_DoneState : String := "Done"

/-- Modelled from the spec: yes-state string of `ASITiger.h`. -/
def g_YesState : String := "Yes"

/-- Modelled from the spec: no-state string of `ASITiger.h`. -/
def g_NoState : String := "No"

/-- Bit constant `BIT0` of `ASITiger.h`. -/
def BIT0 : Nat := 1

/-- Bit constant `BIT1` of `ASITiger.h`. -/
def BIT1 : Nat := 2

/-- Bit constant `BIT2` of `ASITiger.h`. -/
def BIT2 : Nat := 4

/-- Bit constant `BIT4` of `ASITiger.h`. -/
def BIT4 : Nat := 16

/-- Bit constant `BIT5` of `ASITiger.h`. -/
def BIT5 : Nat := 32

/-- Bit constant `BIT6` of `ASITiger.h`. -/
def BIT6 : Nat := 64

/-- Bit constant `BIT7` of `ASITiger.h`. -/
def BIT7 : Nat := 128

/-- The per-peripheral state the handlers consult: the refresh-policy flag
(`refreshProps_`), the initialization flag (`initialized_`), the hub
address character (`addressChar_`, as a string prepended to card-wide
commands), and the firmware version in hundredths (version 2.89 is 289),
from which `FirmwareVersionAtLeast` is derived. -/
structure Periph where
  refreshProps : Bool
  initialized : Bool
  addressChar : String
  fwHundredths : Nat
deriving DecidableEq, Repr

/-- `FirmwareVersionAtLeast`: the firmware version (in hundredths) is at
least the given threshold. -/
def Periph.fwAtLeast (p : Periph) (x : Nat) : Bool := decide (x ≤ p.fwHundredths)

/-- Result of one property-handler invocation: the device return code, the
property value exposed after the call, and the channel effects. -/
structure HOut (α : Type) where
  rc : RC
  val : α
  chan : Chan
deriving Repr, DecidableEq

/-!
Handlers of `MixinInput.h`.  Each handler lambda is embedded as a function
from the peripheral state, the mock hub, the captured command/axis strings,
and the current (cached) property value, to an `HOut`.
-/

/-- `CreateJoystickInputProperty`, `MM::BeforeGet` branch
(`MixinInput.h`): refresh-avoidance guard, query `J <axis>?`, decode the
wire code into an enum string, leaving the value as-is for unsupported
codes. -/
def joystickInputBeforeGet (p : Periph) (hub : Hub) (axisLetter cur : String) :
    HOut String :=
  let query := "J " ++ axisLetter ++ "?"
  let response := ":A " ++ axisLetter ++ "="
  if !p.refreshProps && p.initialized then ⟨RC.ok, cur, Chan.empty⟩
  else
    match queryCommandVerify hub Chan.empty query response with
    | (RC.ok, ch) =>
      match parseLongAfterEquals ch.lastAnswer with
      | none => ⟨RC.serialInvalidResponse, cur, ch⟩
      | some tmp =>
        let newVal :=
          if tmp = 0 then g_JSCode_0
          else if tmp = 1 then g_JSCode_1
          else if tmp = 2 then g_JSCode_2
          else if tmp = 3 then g_JSCode_3
          else if tmp = 22 then g_JSCode_22
          else if tmp = 23 then g_JSCode_23
          else cur
        ⟨RC.ok, newVal, ch⟩
    | (rc, ch) => ⟨rc, cur, ch⟩

/-- `CreateJoystickInputProperty`, `MM::AfterSet` branch (`MixinInput.h`):
map the enum string to its wire code, rejecting unknown strings before any
command is issued, then issue `J <axis>=<code>`. -/
def joystickInputAfterSet (hub : Hub) (axisLetter s : String) : HOut String :=
  let command := "J " ++ axisLetter ++ "="
  let tmp? : Option Int :=
    if s = g_JSCode_0 then some 0
    else if s = g_JSCode_1 then some 1
    else if s = g_JSCode_2 then some 2
    else if s = g_JSCode_3 then some 3
    else if s = g_JSCode_22 then some 22
    else if s = g_JSCode_23 then some 23
    else none
  match tmp? with
  | none => ⟨RC.invalidPropertyValue, s, Chan.empty⟩
  | some tmp =>
    let r := queryCommandVerify hub Chan.empty (command ++ toString tmp) ":A"
    ⟨r.1, s, r.2⟩

/-- `CreateJoystickEnabledProperty`, `MM::BeforeGet` branch
(`MixinInput.h`): anything non-zero reads as enabled. -/
def joystickEnabledBeforeGet (p : Periph) (hub : Hub) (axisLetterX cur : String) :
    HOut String :=
  let query := "J " ++ axisLetterX ++ "?"
  let response := ":A " ++ axisLetterX ++ "="
  if !p.refreshProps && p.initialized then ⟨RC.ok, cur, Chan.empty⟩
  else
    match queryCommandVerify hub Chan.empty query response with
    | (RC.ok, ch) =>
      match parseLongAfterEquals ch.lastAnswer with
      | none => ⟨RC.serialInvalidResponse, cur, ch⟩
      | some tmp => ⟨RC.ok, if tmp ≠ 0 then "Yes" else "No", ch⟩
    | (rc, ch) => ⟨rc, cur, ch⟩

/-- `CreateJoystickEnabledProperty`, `MM::AfterSet` branch
(`MixinInput.h`): when enabling, the current `JoystickRotate` property
value (read via `GetProperty`, passed here as `rotateProp`) selects the
rotated or standard assignment; disabling issues the zero assignment
without consulting the rotate property. -/
def joystickEnabledAfterSet (hub : Hub) (axisLetterX axisLetterY : String)
    (isEnabled rotateProp : String) : HOut String :=
  let rotated := "J " ++ axisLetterX ++ "=3 " ++ axisLetterY ++ "=2"
  let standard := "J " ++ axisLetterX ++ "=2 " ++ axisLetterY ++ "=3"
  let disabled := "J " ++ axisLetterX ++ "=0 " ++ axisLetterY ++ "=0"
  let command :=
    if isEnabled = "Yes" then (if rotateProp = "Yes" then rotated else standard)
    else disabled
  let r := queryCommandVerify hub Chan.empty command ":A"
  ⟨r.1, isEnabled, r.2⟩

/-- `CreateJoystickRotateProperty`, `MM::BeforeGet` branch
(`MixinInput.h`): the X axis set to the Y joystick direction (code 3)
reads as rotated. -/
def joystickRotateBeforeGet (p : Periph) (hub : Hub) (axisLetterX cur : String) :
    HOut String :=
  let query := "J " ++ axisLetterX ++ "?"
  let response := ":A " ++ axisLetterX ++ "="
  if !p.refreshProps && p.initialized then ⟨RC.ok, cur, Chan.empty⟩
  else
    match queryCommandVerify hub Chan.empty query response with
    | (RC.ok, ch) =>
      match parseRatAfterEquals ch.lastAnswer with
      | none => ⟨RC.serialInvalidResponse, cur, ch⟩
      | some tmp => ⟨RC.ok, if tmp = 3 then "Yes" else "No", ch⟩
    | (rc, ch) => ⟨rc, cur, ch⟩

/-- `CreateJoystickRotateProperty`, `MM::AfterSet` branch
(`MixinInput.h`): when the `JoystickEnabled` property (read via
`GetProperty`, passed here as `enabledProp`) is `Yes`, the new rotate
value selects the rotated or standard assignment; otherwise the zero
assignment is issued. -/
def joystickRotateAfterSet (hub : Hub) (axisLetterX axisLetterY : String)
    (isRotated enabledProp : String) : HOut String :=
  let rotated := "J " ++ axisLetterX ++ "=3 " ++ axisLetterY ++ "=2"
  let standard := "J " ++ axisLetterX ++ "=2 " ++ axisLetterY ++ "=3"
  let disabled := "J " ++ axisLetterX ++ "=0 " ++ axisLetterY ++ "=0"
  let command :=
    if enabledProp = "Yes" then (if isRotated = "Yes" then rotated else standard)
    else disabled
  let r := queryCommandVerify hub Chan.empty command ":A"
  ⟨r.1, isRotated, r.2⟩

/-- `CreateJoystickFastSpeedProperty`, `MM::BeforeGet` branch
(`MixinInput.h`): query `<addr>JS X?` and expose the absolute value of
the parsed speed (`std::abs`). -/
def joystickFastSpeedBeforeGet (p : Periph) (hub : Hub) (cur : ℚ) : HOut ℚ :=
  let query := p.addressChar ++ "JS X?"
  if !p.refreshProps && p.initialized then ⟨RC.ok, cur, Chan.empty⟩
  else
    match queryCommandVerify hub Chan.empty query ":A X=" with
    | (RC.ok, ch) =>
      match parseRatAfterEquals ch.lastAnswer with
      | none => ⟨RC.serialInvalidResponse, cur, ch⟩
      | some tmp => ⟨RC.ok, abs tmp, ch⟩
    | (rc, ch) => ⟨rc, cur, ch⟩

/-- `CreateJoystickReverseProperty`, `MM::BeforeGet` branch
(`MixinInput.h`): query only the fast speed; a negative speed reads as
mirrored (`Yes`). -/
def joystickReverseBeforeGet (p : Periph) (hub : Hub) (cur : String) : HOut String :=
  let query := p.addressChar ++ "JS X?"
  if !p.refreshProps && p.initialized then ⟨RC.ok, cur, Chan.empty⟩
  else
    match queryCommandVerify hub Chan.empty query ":A X=" with
    | (RC.ok, ch) =>
      match parseRatAfterEquals ch.lastAnswer with
      | none => ⟨RC.serialInvalidResponse, cur, ch⟩
      | some tmp => ⟨RC.ok, if tmp < 0 then "Yes" else "No", ch⟩
    | (rc, ch) => ⟨rc, cur, ch⟩

/-- `CreateWheelFastSpeedProperty`, `MM::BeforeGet` branch
(`MixinInput.h`): query `<addr>JS F?` and expose the absolute value of
the parsed speed. -/
def wheelFastSpeedBeforeGet (p : Periph) (hub : Hub) (cur : ℚ) : HOut ℚ :=
  let query := p.addressChar ++ "JS F?"
  if !p.refreshProps && p.initialized then ⟨RC.ok, cur, Chan.empty⟩
  else
    match queryCommandVerify hub Chan.empty query ":A F=" with
    | (RC.ok, ch) =>
      match parseRatAfterEquals ch.lastAnswer with
      | none => ⟨RC.serialInvalidResponse, cur, ch⟩
      | some tmp => ⟨RC.ok, abs tmp, ch⟩
    | (rc, ch) => ⟨rc, cur, ch⟩

/-- `CreateWheelSlowSpeedProperty`, `MM::BeforeGet` branch
(`MixinInput.h`): query `<addr>JS T?` and expose the absolute value of
the parsed speed. -/
def wheelSlowSpeedBeforeGet (p : Periph) (hub : Hub) (cur : ℚ) : HOut ℚ :=
  let query := p.addressChar ++ "JS T?"
  if !p.refreshProps && p.initialized then ⟨RC.ok, cur, Chan.empty⟩
  else
    match queryCommandVerify hub Chan.empty query ":A T=" with
    | (RC.ok, ch) =>
      match parseRatAfterEquals ch.lastAnswer with
      | none => ⟨RC.serialInvalidResponse, cur, ch⟩
      | some tmp => ⟨RC.ok, abs tmp, ch⟩
    | (rc, ch) => ⟨rc, cur, ch⟩

/-- `CreateWheelReverseProperty`, `MM::BeforeGet` branch
(`MixinInput.h`): query only the fast wheel speed; a negative speed reads
as mirrored (`Yes`). -/
def wheelReverseBeforeGet (p : Periph) (hub : Hub) (cur : String) : HOut String :=
  let query := p.addressChar ++ "JS F?"
  if !p.refreshProps && p.initialized then ⟨RC.ok, cur, Chan.empty⟩
  else
    match queryCommandVerify hub Chan.empty query ":A F=" with
    | (RC.ok, ch) =>
      match parseRatAfterEquals ch.lastAnswer with
      | none => ⟨RC.serialInvalidResponse, cur, ch⟩
      | some tmp => ⟨RC.ok, if tmp < 0 then "Yes" else "No", ch⟩
    | (rc, ch) => ⟨rc, cur, ch⟩

/-!
Handlers of `MixinSingleAxis.h`.  The `justSet` function-local static of
`CreateSingleAxisModeProperty` is threaded explicitly.
-/

/-- Result of a handler invocation that also carries the `justSet`
forced-refresh marker (a function-local static in the source). -/
structure JOut (α : Type) where
  rc : RC
  val : α
  justSet : Bool
  chan : Chan
deriving Repr, DecidableEq

/-- `CreateSingleAxisAmplitudeProperty`, `MM::BeforeGet` branch
(`MixinSingleAxis.h`): refresh-avoidance guard, query `SAA <axis>?`, and
expose the parsed value divided by the unit multiplier. -/
def saAmplitudeBeforeGet (p : Periph) (hub : Hub) (axisLetter : String)
    (unitMult : ℚ) (cur : ℚ) : HOut ℚ :=
  let command := "SAA " ++ axisLetter ++ "?"
  let response := ":A " ++ axisLetter ++ "="
  if !p.refreshProps && p.initialized then ⟨RC.ok, cur, Chan.empty⟩
  else
    match queryCommandVerify hub Chan.empty command response with
    | (RC.ok, ch) =>
      match parseRatAfterEquals ch.lastAnswer with
      | none => ⟨RC.serialInvalidResponse, cur, ch⟩
      | some tmp => ⟨RC.ok, tmp / unitMult, ch⟩
    | (rc, ch) => ⟨rc, cur, ch⟩

/-- `CreateSingleAxisModeProperty`, `MM::BeforeGet` branch
(`MixinSingleAxis.h`): the guard also passes when the `justSet` static
is set; a successful decode clears `justSet`. -/
def saModeBeforeGet (p : Periph) (hub : Hub) (axisLetter : String)
    (justSet : Bool) (cur : String) : JOut String :=
  let command := "SAM " ++ axisLetter ++ "?"
  let response := ":A " ++ axisLetter ++ "="
  if !p.refreshProps && p.initialized && !justSet then ⟨RC.ok, cur, justSet, Chan.empty⟩
  else
    match queryCommandVerify hub Chan.empty command response with
    | (RC.ok, ch) =>
      match parseLongAfterEquals ch.lastAnswer with
      | none => ⟨RC.serialInvalidResponse, cur, justSet, ch⟩
      | some tmp =>
        if tmp = 0 then ⟨RC.ok, g_SAMode_0, false, ch⟩
        else if tmp = 1 then ⟨RC.ok, g_SAMode_1, false, ch⟩
        else if tmp = 2 then ⟨RC.ok, g_SAMode_2, false, ch⟩
        else if tmp = 3 then ⟨RC.ok, g_SAMode_3, false, ch⟩
        else ⟨RC.invalidPropertyValue, cur, justSet, ch⟩
    | (rc, ch) => ⟨rc, cur, justSet, ch⟩

/-- `CreateSingleAxisModeProperty`, `MM::AfterSet` branch
(`MixinSingleAxis.h`): map the enum string to its wire code, rejecting
unknown strings before any command is issued; on success set the
`justSet` static so the next read is forced. -/
def saModeAfterSet (hub : Hub) (axisLetter : String) (justSet : Bool)
    (s : String) : JOut String :=
  let tmp? : Option Int :=
    if s = g_SAMode_0 then some 0
    else if s = g_SAMode_1 then some 1
    else if s = g_SAMode_2 then some 2
    else if s = g_SAMode_3 then some 3
    else none
  match tmp? with
  | none => ⟨RC.invalidPropertyValue, s, justSet, Chan.empty⟩
  | some tmp =>
    match queryCommandVerify hub Chan.empty ("SAM " ++ axisLetter ++ "=" ++ toString tmp) ":A" with
    | (RC.ok, ch) => ⟨RC.ok, s, true, ch⟩
    | (rc, ch) => ⟨rc, s, justSet, ch⟩

/-- `CreateSingleAxisPatternProperty`, `MM::BeforeGet` branch
(`MixinSingleAxis.h`): query `SAP <axis>?`, zero all but the lowest 3
bits, and decode. -/
def saPatternBeforeGet (p : Periph) (hub : Hub) (axisLetter cur : String) :
    HOut String :=
  let command := "SAP " ++ axisLetter ++ "?"
  let response := ":A " ++ axisLetter ++ "="
  if !p.refreshProps && p.initialized then ⟨RC.ok, cur, Chan.empty⟩
  else
    match queryCommandVerify hub Chan.empty command response with
    | (RC.ok, ch) =>
      match parseLongAfterEquals ch.lastAnswer with
      | none => ⟨RC.serialInvalidResponse, cur, ch⟩
      | some tmp0 =>
        let tmp := Int.land tmp0 ((BIT2 ||| BIT1 ||| BIT0 : Nat) : Int)
        if tmp = 0 then ⟨RC.ok, g_SAPattern_0, ch⟩
        else if tmp = 1 then ⟨RC.ok, g_SAPattern_1, ch⟩
        else if tmp = 2 then ⟨RC.ok, g_SAPattern_2, ch⟩
        else if tmp = 3 then ⟨RC.ok, g_SAPattern_3, ch⟩
        else ⟨RC.invalidPropertyValue, cur, ch⟩
    | (rc, ch) => ⟨rc, cur, ch⟩

/-- `CreateSingleAxisPatternProperty`, `MM::AfterSet` branch
(`MixinSingleAxis.h`): map the enum string to its wire bits, re-query the
current `SAP` register, set the lowest 3 bits to zero, add the new bits,
and write the combination back. -/
def saPatternAfterSet (hub : Hub) (axisLetter s : String) : HOut String :=
  let tmp? : Option Int :=
    if s = g_SAPattern_0 then some 0
    else if s = g_SAPattern_1 then some 1
    else if s = g_SAPattern_2 then some 2
    else if s = g_SAPattern_3 then some 3
    else none
  match tmp? with
  | none => ⟨RC.invalidPropertyValue, s, Chan.empty⟩
  | some tmp =>
    let command := "SAP " ++ axisLetter ++ "?"
    let response := ":A " ++ axisLetter ++ "="
    match queryCommandVerify hub Chan.empty command response with
    | (RC.ok, ch) =>
      match parseLongAfterEquals ch.lastAnswer with
      | none => ⟨RC.serialInvalidResponse, s, ch⟩
      | some current0 =>
        let current := Int.land current0 (~~~((BIT2 ||| BIT1 ||| BIT0 : Nat) : Int))
        let combined := tmp + current
        let r := queryCommandVerify hub ch ("SAP " ++ axisLetter ++ "=" ++ toString combined) ":A"
        ⟨r.1, s, r.2⟩
    | (rc, ch) => ⟨rc, s, ch⟩

/-- `CreateSingleAxisClockSourceProperty`, `MM::AfterSet` branch
(`MixinSingleAxis.h`): bit 7 of the `SAP` register, read-modify-write. -/
def saClkSrcAfterSet (hub : Hub) (axisLetter s : String) : HOut String :=
  let tmp? : Option Int :=
    if s = g_SAClkSrc_0 then some 0
    else if s = g_SAClkSrc_1 then some ((BIT7 : Nat) : Int)
    else none
  match tmp? with
  | none => ⟨RC.invalidPropertyValue, s, Chan.empty⟩
  | some tmp =>
    let command := "SAP " ++ axisLetter ++ "?"
    let response := ":A " ++ axisLetter ++ "="
    match queryCommandVerify hub Chan.empty command response with
    | (RC.ok, ch) =>
      match parseLongAfterEquals ch.lastAnswer with
      | none => ⟨RC.serialInvalidResponse, s, ch⟩
      | some current0 =>
        let current := Int.land current0 (~~~((BIT7 : Nat) : Int))
        let combined := tmp + current
        let r := queryCommandVerify hub ch ("SAP " ++ axisLetter ++ "=" ++ toString combined) ":A"
        ⟨r.1, s, r.2⟩
    | (rc, ch) => ⟨rc, s, ch⟩

/-- `CreateSingleAxisClockPolarityProperty`, `MM::BeforeGet` branch
(`MixinSingleAxis.h`): bit 6 of the `SAP` register decodes the polarity. -/
def saClkPolBeforeGet (p : Periph) (hub : Hub) (axisLetter cur : String) :
    HOut String :=
  let command := "SAP " ++ axisLetter ++ "?"
  let response := ":A " ++ axisLetter ++ "="
  if !p.refreshProps && p.initialized then ⟨RC.ok, cur, Chan.empty⟩
  else
    match queryCommandVerify hub Chan.empty command response with
    | (RC.ok, ch) =>
      match parseLongAfterEquals ch.lastAnswer with
      | none => ⟨RC.serialInvalidResponse, cur, ch⟩
      | some tmp0 =>
        let tmp := Int.land tmp0 ((BIT6 : Nat) : Int)
        if tmp = 0 then ⟨RC.ok, g_SAClkPol_0, ch⟩
        else if tmp = ((BIT6 : Nat) : Int) then ⟨RC.ok, g_SAClkPol_1, ch⟩
        else ⟨RC.invalidPropertyValue, cur, ch⟩
    | (rc, ch) => ⟨rc, cur, ch⟩

/-- `CreateSingleAxisClockPolarityProperty`, `MM::AfterSet` branch
(`MixinSingleAxis.h`): bit 6 of the `SAP` register, read-modify-write. -/
def saClkPolAfterSet (hub : Hub) (axisLetter s : String) : HOut String :=
  let tmp? : Option Int :=
    if s = g_SAClkPol_0 then some 0
    else if s = g_SAClkPol_1 then some ((BIT6 : Nat) : Int)
    else none
  match tmp? with
  | none => ⟨RC.invalidPropertyValue, s, Chan.empty⟩
  | some tmp =>
    let command := "SAP " ++ axisLetter ++ "?"
    let response := ":A " ++ axisLetter ++ "="
    match queryCommandVerify hub Chan.empty command response with
    | (RC.ok, ch) =>
      match parseLongAfterEquals ch.lastAnswer with
      | none => ⟨RC.serialInvalidResponse, s, ch⟩
      | some current0 =>
        let current := Int.land current0 (~~~((BIT6 : Nat) : Int))
        let combined := tmp + current
        let r := queryCommandVerify hub ch ("SAP " ++ axisLetter ++ "=" ++ toString combined) ":A"
        ⟨r.1, s, r.2⟩
    | (rc, ch) => ⟨rc, s, ch⟩

/-- `CreateSingleAxisTTLOutputProperty`, `MM::BeforeGet` branch
(`MixinSingleAxis.h`): bit 5 of the `SAP` register decodes the TTL
output enable. -/
def saTTLOutBeforeGet (p : Periph) (hub : Hub) (axisLetter cur : String) :
    HOut String :=
  let command := "SAP " ++ axisLetter ++ "?"
  let response := ":A " ++ axisLetter ++ "="
  if !p.refreshProps && p.initialized then ⟨RC.ok, cur, Chan.empty⟩
  else
    match queryCommandVerify hub Chan.empty command response with
    | (RC.ok, ch) =>
      match parseLongAfterEquals ch.lastAnswer with
      | none => ⟨RC.serialInvalidResponse, cur, ch⟩
      | some tmp0 =>
        let tmp := Int.land tmp0 ((BIT5 : Nat) : Int)
        if tmp = 0 then ⟨RC.ok, g_SATTLOut_0, ch⟩
        else if tmp = ((BIT5 : Nat) : Int) then ⟨RC.ok, g_SATTLOut_1, ch⟩
        else ⟨RC.invalidPropertyValue, cur, ch⟩
    | (rc, ch) => ⟨rc, cur, ch⟩

/-- `CreateSingleAxisTTLOutputProperty`, `MM::AfterSet` branch
(`MixinSingleAxis.h`): bit 5 of the `SAP` register, read-modify-write. -/
def saTTLOutAfterSet (hub : Hub) (axisLetter s : String) : HOut String :=
  let tmp? : Option Int :=
    if s = g_SATTLOut_0 then some 0
    else if s = g_SATTLOut_1 then some ((BIT5 : Nat) : Int)
    else none
  match tmp? with
  | none => ⟨RC.invalidPropertyValue, s, Chan.empty⟩
  | some tmp =>
    let command := "SAP " ++ axisLetter ++ "?"
    let response := ":A " ++ axisLetter ++ "="
    match queryCommandVerify hub Chan.empty command response with
    | (RC.ok, ch) =>
      match parseLongAfterEquals ch.lastAnswer with
      | none => ⟨RC.serialInvalidResponse, s, ch⟩
      | some current0 =>
        let current := Int.land current0 (~~~((BIT5 : Nat) : Int))
        let combined := tmp + current
        let r := queryCommandVerify hub ch ("SAP " ++ axisLetter ++ "=" ++ toString combined) ":A"
        ⟨r.1, s, r.2⟩
    | (rc, ch) => ⟨rc, s, ch⟩

/-!
Ring-buffer and card-wide (shared) property handlers, from
`MixinRingBuffer.h` and `ASIXYStage.cpp` (`CXYStage::OnRBMode`,
`OnRBDelayBetweenPoints`, `OnRBTrigger`, `OnRBRunning`,
`OnSaveCardSettings`) and `ASIPmt.c` (`CPMT::OnSaveCardSettings`).
`hub_->UpdateSharedProperties(addr, name, value)` calls are recorded in
the `shared` list; `hub_->UpdatingSharedProperties()` is passed in as the
`updatingShared` flag.
-/

/-- Result of a shared-property handler invocation: return code, exposed
property value, channel effects, and the `UpdateSharedProperties`
propagation calls made (address, property name, value). -/
structure SOut (α : Type) where
  rc : RC
  val : α
  chan : Chan
  shared : List (String × String × String)
deriving Repr, DecidableEq

/-- `OnRBMode` / `CreateRingBufferModeProperty`, `MM::BeforeGet` branch:
the pseudo axis letter is `F` from firmware 2.89 on, else `X`; wire
values of 128 and above have the "running now" code removed before the
mode is decoded. -/
def rbModeBeforeGet (p : Periph) (hub : Hub) (cur : String) : HOut String :=
  let pseudoAxisChar := if p.fwAtLeast 289 then "F" else "X"
  let command := p.addressChar ++ "RM " ++ pseudoAxisChar ++ "?"
  let response := ":A " ++ pseudoAxisChar ++ "="
  if !p.refreshProps && p.initialized then ⟨RC.ok, cur, Chan.empty⟩
  else
    match queryCommandVerify hub Chan.empty command response with
    | (RC.ok, ch) =>
      match parseLongAfterEquals ch.lastAnswer with
      | none => ⟨RC.serialInvalidResponse, cur, ch⟩
      | some tmp0 =>
        let tmp := if tmp0 ≥ 128 then tmp0 - 128 else tmp0
        if tmp = 1 then ⟨RC.ok, g_RB_OnePoint_1, ch⟩
        else if tmp = 2 then ⟨RC.ok, g_RB_PlayOnce_2, ch⟩
        else if tmp = 3 then ⟨RC.ok, g_RB_PlayRepeat_3, ch⟩
        else ⟨RC.invalidPropertyValue, cur, ch⟩
    | (rc, ch) => ⟨rc, cur, ch⟩

/-- `OnRBMode` / `CreateRingBufferModeProperty`, `MM::AfterSet` branch:
return immediately under the hub's shared-property propagation flag;
otherwise map the enum string (rejecting unknown strings before any
command), issue `<addr>RM <pseudo>=<code>`, then propagate the string to
the siblings. -/
def rbModeAfterSet (p : Periph) (hub : Hub) (updatingShared : Bool)
    (s : String) : SOut String :=
  let pseudoAxisChar := if p.fwAtLeast 289 then "F" else "X"
  if updatingShared then ⟨RC.ok, s, Chan.empty, []⟩
  else
    let tmp? : Option Int :=
      if s = g_RB_OnePoint_1 then some 1
      else if s = g_RB_PlayOnce_2 then some 2
      else if s = g_RB_PlayRepeat_3 then some 3
      else none
    match tmp? with
    | none => ⟨RC.invalidPropertyValue, s, Chan.empty, []⟩
    | some tmp =>
      match queryCommandVerify hub Chan.empty
          (p.addressChar ++ "RM " ++ pseudoAxisChar ++ "=" ++ toString tmp) ":A" with
      | (RC.ok, ch) => ⟨RC.ok, s, ch, [(p.addressChar, g_RB_ModePropertyName, s)]⟩
      | (rc, ch) => ⟨rc, s, ch, []⟩

/-- `OnRBDelayBetweenPoints` (`ASIXYStage.cpp`), `MM::BeforeGet` branch:
query `<addr>RT Z?`. -/
def rbDelayBeforeGet (p : Periph) (hub : Hub) (cur : Int) : HOut Int :=
  let command := p.addressChar ++ "RT Z?"
  if !p.refreshProps && p.initialized then ⟨RC.ok, cur, Chan.empty⟩
  else
    match queryCommandVerify hub Chan.empty command ":A Z=" with
    | (RC.ok, ch) =>
      match parseLongAfterEquals ch.lastAnswer with
      | none => ⟨RC.serialInvalidResponse, cur, ch⟩
      | some tmp => ⟨RC.ok, tmp, ch⟩
    | (rc, ch) => ⟨rc, cur, ch⟩

/-- `OnRBDelayBetweenPoints` (`ASIXYStage.cpp`), `MM::AfterSet` branch:
return immediately under the propagation flag; otherwise issue
`<addr>RT Z=<value>` and propagate the value. -/
def rbDelayAfterSet (p : Periph) (hub : Hub) (updatingShared : Bool)
    (tmp : Int) : SOut Int :=
  if updatingShared then ⟨RC.ok, tmp, Chan.empty, []⟩
  else
    match queryCommandVerify hub Chan.empty
        (p.addressChar ++ "RT Z=" ++ toString tmp) ":A" with
    | (RC.ok, ch) =>
      ⟨RC.ok, tmp, ch, [(p.addressChar, g_RB_DelayPropertyName, toString tmp)]⟩
    | (rc, ch) => ⟨rc, tmp, ch, []⟩

/-- `OnRBTrigger` (`ASIXYStage.cpp`), `MM::AfterSet` branch: return
immediately under the propagation flag; on the do-it value, issue the
card-wide `<addr>RM` trigger, flip the property to done and propagate. -/
def rbTriggerAfterSet (p : Periph) (hub : Hub) (updatingShared : Bool)
    (s : String) : SOut String :=
  if updatingShared then ⟨RC.ok, s, Chan.empty, []⟩
  else if s = g_DoItState then
    match queryCommandVerify hub Chan.empty (p.addressChar ++ "RM") ":A" with
    | (RC.ok, ch) =>
      ⟨RC.ok, g_DoneState, ch, [(p.addressChar, g_RB_TriggerPropertyName, g_DoneState)]⟩
    | (rc, ch) => ⟨rc, s, ch, []⟩
  else ⟨RC.ok, s, Chan.empty, []⟩

/-- `OnRBRunning` / `CreateRingBufferAutoplayRunningProperty`,
`MM::BeforeGet` branch: the guard also passes when the `justSet` static
is set; a wire value of 128 or above reads as autoplay running. -/
def rbRunningBeforeGet (p : Periph) (hub : Hub) (justSet : Bool)
    (cur : String) : JOut String :=
  let pseudoAxisChar := if p.fwAtLeast 289 then "F" else "X"
  let command := p.addressChar ++ "RM " ++ pseudoAxisChar ++ "?"
  let response := ":A " ++ pseudoAxisChar ++ "="
  if !p.refreshProps && p.initialized && !justSet then ⟨RC.ok, cur, justSet, Chan.empty⟩
  else
    match queryCommandVerify hub Chan.empty command response with
    | (RC.ok, ch) =>
      match parseLongAfterEquals ch.lastAnswer with
      | none => ⟨RC.serialInvalidResponse, cur, justSet, ch⟩
      | some tmp =>
        if tmp ≥ 128 then ⟨RC.ok, "Yes", false, ch⟩
        else ⟨RC.ok, "No", false, ch⟩
    | (rc, ch) => ⟨rc, cur, justSet, ch⟩

/-- `CXYStage::OnSaveJoystickSettings` (`ASIXYStage.cpp`): re-reads both
joystick assignments and re-issues them with 100 added, so they are
saved by `SS Z`. -/
def onSaveJoystickSettings (hub : Hub) (axisLetterX axisLetterY : String) :
    RC × Chan :=
  match queryCommandVerify hub Chan.empty ("J " ++ axisLetterX ++ "?")
      (":A " ++ axisLetterX ++ "=") with
  | (RC.ok, ch1) =>
    match parseLongAfterEquals ch1.lastAnswer with
    | none => (RC.serialInvalidResponse, ch1)
    | some tmp =>
      match queryCommandVerify hub ch1 ("J " ++ axisLetterX ++ "=" ++ toString (tmp + 100)) ":A" with
      | (RC.ok, ch2) =>
        match queryCommandVerify hub ch2 ("J " ++ axisLetterY ++ "?")
            (":A " ++ axisLetterY ++ "=") with
        | (RC.ok, ch3) =>
          match parseLongAfterEquals ch3.lastAnswer with
          | none => (RC.serialInvalidResponse, ch3)
          | some tmp2 =>
            (queryCommandVerify hub ch3 ("J " ++ axisLetterY ++ "=" ++ toString (tmp2 + 100)) ":A")
        | (rc, ch3) => (rc, ch3)
      | (rc, ch2) => (rc, ch2)
  | (rc, ch1) => (rc, ch1)

/-- `CXYStage::OnSaveCardSettings` (`ASIXYStage.cpp`), `MM::AfterSet`
branch.  Note two peculiarities of this handler, kept faithfully: it
does NOT consult the hub's propagation flag (the `updatingShared`
argument is the flag's value at entry, which the body never reads), and
the restore-settings value appends `X` rather than `Y` to the `SS`
command. -/
def saveCardSettingsXYAfterSet (p : Periph) (hub : Hub)
    (updatingShared : Bool) (axisLetterX axisLetterY : String) (s : String) :
    SOut String :=
  if s = g_SaveSettingsOrig then ⟨RC.ok, s, Chan.empty, []⟩
  else if s = g_SaveSettingsDone then ⟨RC.ok, s, Chan.empty, []⟩
  else
    let letter :=
      if s = g_SaveSettingsX then "X"
      else if s = g_SaveSettingsY then "X"
      else if s = g_SaveSettingsZ then "Z"
      else if s = g_SaveSettingsZJoystick then "Z"
      else ""
    let pre : RC × Chan :=
      if s = g_SaveSettingsZJoystick then onSaveJoystickSettings hub axisLetterX axisLetterY
      else (RC.ok, Chan.empty)
    match pre with
    | (RC.ok, ch0) =>
      match queryCommandVerify hub ch0 (p.addressChar ++ "SS " ++ letter) ":A" with
      | (RC.ok, ch) =>
        ⟨RC.ok, g_SaveSettingsDone, ch,
          [(p.addressChar, "SaveCardSettings", g_SaveSettingsDone)]⟩
      | (rc, ch) => ⟨rc, s, ch, []⟩
    | (rc, ch0) => ⟨rc, s, ch0, []⟩

/-- `CPMT::OnSaveCardSettings` (`ASIPmt.c`), `MM::AfterSet` branch: this
handler DOES return immediately under the hub's propagation flag. -/
def saveCardSettingsPMTAfterSet (p : Periph) (hub : Hub)
    (updatingShared : Bool) (s : String) : SOut String :=
  if updatingShared then ⟨RC.ok, s, Chan.empty, []⟩
  else if s = g_SaveSettingsOrig then ⟨RC.ok, s, Chan.empty, []⟩
  else if s = g_SaveSettingsDone then ⟨RC.ok, s, Chan.empty, []⟩
  else
    let letter :=
      if s = g_SaveSettingsX then "X"
      else if s = g_SaveSettingsY then "Y"
      else if s = g_SaveSettingsZ then "Z"
      else ""
    match queryCommandVerify hub Chan.empty (p.addressChar ++ "SS " ++ letter) ":A" with
    | (RC.ok, ch) =>
      ⟨RC.ok, g_SaveSettingsDone, ch,
        [(p.addressChar, "SaveCardSettings", g_SaveSettingsDone)]⟩
    | (rc, ch) => ⟨rc, s, ch, []⟩

/-!
Speed ("speed truth") handling and initialization fragments of
`CXYStage::Initialize` / `CXYStage::OnSpeedGeneric` (`ASIXYStage.cpp`).
-/

/-- Modelled from the spec: `ASIHub::IsDefinePresent` (the hub source is
not among the source files) — whether a feature-definition token is
present in the parsed firmware build descriptor. -/
def isDefinePresent (defines : List String) (tok : String) : Bool :=
  defines.contains tok

/-- The `speedTruth_` population in `CXYStage::Initialize`: from firmware
3.27 on the flag is the absence of the `SPEED UNTRUTH` define; before
3.27 it is the presence of the `SPEED TRUTH` define. -/
def computeSpeedTruth (fwAtLeast327 : Bool) (defines : List String) : Bool :=
  if fwAtLeast327 then !(isDefinePresent defines "SPEED UNTRUTH")
  else isDefinePresent defines "SPEED TRUTH"

/-- The mutable state touched by `CXYStage::OnSpeedGeneric` for the X
axis: the speed property value, the `lastSpeedX_` member, the derived
`MotorSpeedXMicronsPerSec` property (its handler exposes
`lastSpeedX_*1000`), and the `refreshOverride_` member. -/
structure SpeedState where
  val : ℚ
  lastSpeedX : ℚ
  micronsX : ℚ
  refreshOverride : Bool
deriving DecidableEq, Repr

/-- `CXYStage::OnSpeedGeneric`, `MM::BeforeGet` branch (X-axis
instance): the refresh-avoidance guard is bypassed when
`refreshOverride_` is set; the override is consumed; the parsed speed is
exposed, recorded in `lastSpeedX_` and pushed into the
microns-per-second property. -/
def onSpeedBeforeGet (p : Periph) (hub : Hub) (axisLetter : String)
    (st : SpeedState) : RC × SpeedState × Chan :=
  let command := "S " ++ axisLetter ++ "?"
  let response := ":A " ++ axisLetter ++ "="
  if !p.refreshProps && p.initialized && !st.refreshOverride then (RC.ok, st, Chan.empty)
  else
    let st1 := { st with refreshOverride := false }
    match queryCommandVerify hub Chan.empty command response with
    | (RC.ok, ch) =>
      match parseRatAfterEquals ch.lastAnswer with
      | none => (RC.serialInvalidResponse, st1, ch)
      | some tmp =>
        (RC.ok, { st1 with val := tmp, lastSpeedX := tmp, micronsX := tmp * 1000 }, ch)
    | (rc, ch) => (rc, st1, ch)

/-- `CXYStage::OnSpeedGeneric`, `MM::AfterSet` branch (X-axis instance):
issue `S <axis>=<value>`; with `speedTruth_` set, force an immediate
re-read of the same property by setting `refreshOverride_` and invoking
the `BeforeGet` branch; otherwise record the requested value. -/
def onSpeedAfterSet (p : Periph) (hub : Hub) (axisLetter : String)
    (speedTruth : Bool) (st : SpeedState) (tmp : ℚ) : RC × SpeedState × Chan :=
  match queryCommandVerify hub Chan.empty ("S " ++ axisLetter ++ "=" ++ toString tmp) ":A" with
  | (RC.ok, ch) =>
    if speedTruth then
      let st1 := { st with val := tmp, refreshOverride := true }
      match onSpeedBeforeGet p hub axisLetter st1 with
      | (rc, st2, ch2) => (rc, st2, ⟨ch.cmds ++ ch2.cmds, ch2.lastAnswer⟩)
    else
      (RC.ok, { st with val := tmp, lastSpeedX := tmp, micronsX := tmp * 1000 }, ch)
  | (rc, ch) => (rc, { st with val := tmp }, ch)

/-- The ring-buffer capacity parse in `CXYStage::Initialize`: zero unless
the define string is longer than 12 characters, in which case `atol` of
the substring from position 11 on. -/
def ringBufferCapacityFromDefine (rb_define : String) : Int :=
  if rb_define.length > 12 then atol (rb_define.drop 11) else 0

/-- Outcome of the ring-buffer block of `CXYStage::Initialize`: whether
the ring buffer is supported (and its properties registered), the parsed
capacity, and the names of the properties created. -/
structure RBInit where
  supported : Bool
  capacity : Int
  createdProps : List String
deriving DecidableEq, Repr

/-- The ring-buffer block of `CXYStage::Initialize` (`ASIXYStage.cpp`):
guarded by firmware 2.81 and bit 1 of the first per-axis capability
bitmask; the properties are registered exactly when the parsed capacity
is nonzero.  `rb_define` is the firmware define beginning `RING BUFFER`
(fetched through `ASIHub::GetDefineString`, which is not among the
source files; modelled from the spec as the full matching define
string). -/
def xyStageRingBufferInit (fwAtLeast281 : Bool) (vAxesProps0 : Nat)
    (rb_define : String) : RBInit :=
  if fwAtLeast281 && (vAxesProps0 &&& BIT1 ≠ 0) then
    let cap := ringBufferCapacityFromDefine rb_define
    if cap ≠ 0 then
      ⟨true, cap,
        [g_RB_ModePropertyName, g_RB_DelayPropertyName, g_RB_TriggerPropertyName,
         g_RB_AutoplayRunningPropertyName, g_UseSequencePropertyName]⟩
    else ⟨false, cap, []⟩
  else ⟨false, 0, []⟩

/-- The property names passed to the `Create*Property` calls of
`MixinRingBuffer::MixinCreateRingBufferProperties`, in registration
order.  `CreateRingBufferModeProperty` and `CreateRingBufferTriggerProperty`
and `CreateRingBufferAutoplayRunningProperty` pass their own names;
`CreateRingBufferDelayProperty` passes `g_RB_ModePropertyName` to
`CreateIntegerProperty` (`MixinRingBuffer.h`, the delay property's
creation call) while its closing `UpdateProperty` call names
`g_RB_DelayPropertyName`. -/
def mixinRingBufferCreatedNames : List String :=
  [g_RB_ModePropertyName,
   g_RB_ModePropertyName,
   g_RB_TriggerPropertyName,
   g_RB_AutoplayRunningPropertyName]

/-!
The enumerated-property registrations (property name with the
`AddAllowedValue` strings of its creation call) and the binding-layer
validation.
-/

/-- Modelled from the spec: property-name constant of `ASITiger.h`. -/
def g_JoystickSelectPropertyName : String := "JoystickInput"

/-- Modelled from the spec: property-name constant of `ASITiger.h`. -/
def g_JoystickEnabledPropertyName : String := "JoystickEnabled"

/-- Modelled from the spec: property-name constant of `ASITiger.h`. -/
def g_JoystickRotatePropertyName : String := "JoystickRotate"

/-- Modelled from the spec: property-name constant of `ASITiger.h`. -/
def g_JoystickMirrorPropertyName : String := "JoystickReverse"

/-- Modelled from the spec: property-name constant of `ASITiger.h`. -/
def g_WheelMirrorPropertyName : String := "WheelReverse"

/-- Modelled from the spec: property-name constant of `ASITiger.h`. -/
def g_SAModePropertyName : String := "SingleAxisMode"

/-- Modelled from the spec: property-name constant of `ASITiger.h`. -/
def g_SAPatternPropertyName : String := "SingleAxisPattern"

/-- The enumerated properties registered by the embedded handlers, each
with the allowed-value strings from its creation call's
`AddAllowedValue` lines.  Note `g_JSCode_1` is accepted by the joystick
input handler's switch but is not registered as an allowed value. -/
def enumRegistrations : List (String × List String) :=
  [(g_JoystickSelectPropertyName,
    [g_JSCode_0, g_JSCode_2, g_JSCode_3, g_JSCode_22, g_JSCode_23]),
   (g_JoystickEnabledPropertyName, ["No", "Yes"]),
   (g_JoystickRotatePropertyName, ["No", "Yes"]),
   (g_JoystickMirrorPropertyName, ["No", "Yes"]),
   (g_WheelMirrorPropertyName, ["No", "Yes"]),
   (g_SAModePropertyName, [g_SAMode_0, g_SAMode_1, g_SAMode_2, g_SAMode_3]),
   (g_SAPatternPropertyName, [g_SAPattern_0, g_SAPattern_1, g_SAPattern_2, g_SAPattern_3]),
   (g_RB_ModePropertyName, [g_RB_OnePoint_1, g_RB_PlayOnce_2, g_RB_PlayRepeat_3]),
   (g_RB_TriggerPropertyName, [g_IdleState, g_DoItState, g_DoneState]),
   (g_RB_AutoplayRunningPropertyName, ["No", "Yes"])]

/-- Modelled from the spec: the MMDevice property store (its source is
not among the source files) validates a new enum value against the
property's registered allowed-value set and rejects it with an
invalid-property-value error before the bound handler runs, so a failed
set issues no wire command and leaves the cached value unchanged. -/
def bindingAfterSet (allowed : List String) (handler : String → HOut String)
    (s cur : String) : HOut String :=
  if allowed.contains s then handler s else ⟨RC.invalidPropertyValue, cur, Chan.empty⟩

/-!
Concrete fixtures used by scenario theorems and witnesses.
-/

/-- Mock hub that acknowledges every command. -/
def ackHub : Hub := ⟨fun _ => ":A"⟩

/-- Mock hub that rejects every command: any query issued against it
fails verification, so a successful zero-command result can only come
from a path that never touched the wire. -/
def nakHub : Hub := ⟨fun _ => ":N"⟩

/-- Peripheral fixture: refresh policy off, initialized, hub address 2,
firmware 2.89. -/
def guardPeriph : Periph := ⟨false, true, "2", 289⟩

/-- Peripheral fixture with the refresh policy on (every read queries
the hardware). -/
def refreshPeriph : Periph := ⟨true, true, "2", 289⟩

/-- Hub fixture for the ring-buffer scenario: answers `:A F=131` to the
mode query `2RM F?`. -/
def rbScenarioHub : Hub := ⟨fun c => if c = "2RM F?" then ":A F=131" else ":N"⟩

/-- Hub fixture answering the `SAP` register query for axis `A` with 103
and acknowledging writes. -/
def sapHub : Hub := ⟨fun c => if c = "SAP A?" then ":A A=103" else ":A"⟩

/-- Hub fixture for the joystick/wheel speed queries: all speeds are
mirrored (negative) on the wire. -/
def speedMirrorHub : Hub :=
  ⟨fun c =>
    if c = "2JS X?" then ":A X=-50.5"
    else if c = "2JS F?" then ":A F=-3"
    else if c = "2JS T?" then ":A T=-2.5"
    else ":A"⟩

/-- Hub fixture for the speed-truth scenario: the controller answers the
speed query with 5.7 and acknowledges everything else. -/
def speedTruthHub : Hub := ⟨fun c => if c = "S X?" then ":A X=5.7" else ":A"⟩

/-!
Theorems.  Shared helper lemmas come first, then one theorem per claim
(with a witness or counterexample where required).
-/

/-- Bridging lemma: the source's `current & ~mask` on a non-negative
`long` is `Nat.ldiff` on the underlying naturals. -/
theorem int_land_not_ofNat (n m : Nat) :
    Int.land (n : Int) (~~~(m : Int)) = ((Nat.ldiff n m : Nat) : Int) := rfl

/-- Adding two naturals with disjoint binary support is their bitwise
or. -/
theorem add_eq_lor_of_land_eq_zero (a b : Nat) (h : a &&& b = 0) :
    a + b = a ||| b := by
  induction a using Nat.binaryRec generalizing b with
  | z => simp
  | f c m ih =>
    rw [← Nat.bit_decomp b] at h ⊢
    rw [Nat.land_bit, Nat.bit_eq_zero_iff] at h
    obtain ⟨h1, h2⟩ := h
    rw [Nat.lor_bit, Nat.bit_val, Nat.bit_val, Nat.bit_val, ← ih _ h1]
    have key : c.toNat + (Nat.bodd b).toNat = (c || Nat.bodd b).toNat := by
      rcases c <;> rcases hb : Nat.bodd b <;> simp_all
    rw [← key]
    omega

/-- A value supported inside the mask is disjoint from anything with the
mask bits removed. -/
theorem land_ldiff_eq_zero (t n own : Nat) (ht : t &&& own = t) :
    t &&& Nat.ldiff n own = 0 := by
  apply Nat.eq_of_testBit_eq
  intro j
  simp only [Nat.testBit_land, Nat.testBit_ldiff, Nat.zero_testBit]
  by_cases h1 : t.testBit j = true
  · have h2 : own.testBit j = true := by
      have h3 := congrArg (fun x => Nat.testBit x j) ht
      simp only [Nat.testBit_land, h1, Bool.true_and] at h3
      exact h3
    simp [h1, h2]
  · simp only [Bool.not_eq_true] at h1
    simp [h1]

/-- Bits outside the owned mask of a `SAP` read-modify-write are
preserved: writing `t + (n & ~own)` with the new bits `t` supported
inside `own` leaves every bit of `n` outside `own` unchanged. -/
theorem sap_preserved (own t n : Nat) (ht : t &&& own = t) :
    ∀ j, own.testBit j = false → (t + Nat.ldiff n own).testBit j = n.testBit j := by
  intro j hj
  rw [add_eq_lor_of_land_eq_zero _ _ (land_ldiff_eq_zero t n own ht)]
  have h1 : t.testBit j = false := by
    by_contra hc
    simp only [Bool.not_eq_false] at hc
    have h3 := congrArg (fun x => Nat.testBit x j) ht
    simp only [Nat.testBit_land, hc, hj, Bool.true_and] at h3
    exact absurd h3.symm (by simp)
  simp [Nat.testBit_lor, Nat.testBit_ldiff, hj, h1]

/-- C2: with firmware at least 2.89 the ring-buffer mode handler's
BeforeGet sends `2RM F?`; for the hub answer `:A F=131` it sets the mode
property to the PlayRepeat value (131 - 128 = 3), and the
autoplay-running handler's BeforeGet sets its property to `Yes` for the
same answer (wire code at least 128): wire value 131 decodes to
PlayRepeat with the running flag simultaneously true. -/
theorem C2_mode_131_playrepeat_and_running :
    rbModeBeforeGet refreshPeriph rbScenarioHub g_RB_OnePoint_1 =
      ⟨RC.ok, g_RB_PlayRepeat_3, ⟨["2RM F?"], ":A F=131"⟩⟩ ∧
    rbRunningBeforeGet refreshPeriph rbScenarioHub false "No" =
      ⟨RC.ok, "Yes", false, ⟨["2RM F?"], ":A F=131"⟩⟩ ∧
    (131 : Int) - 128 = 3 := by
  decide

/-- C3: on a dual-axis peripheral with axis letters X and Y, an AfterSet
of JoystickRotate to `Yes` while the JoystickEnabled property reads
`Yes` issues exactly `J X=3 Y=2`, and an AfterSet of JoystickEnabled to
`No` issues exactly `J X=0 Y=0` whatever the current JoystickRotate
value is. -/
theorem C3_joystick_rotate_enable_commands :
    joystickRotateAfterSet ackHub "X" "Y" "Yes" "Yes" =
      ⟨RC.ok, "Yes", ⟨["J X=3 Y=2"], ":A"⟩⟩ ∧
    ∀ rotateProp : String,
      joystickEnabledAfterSet ackHub "X" "Y" "No" rotateProp =
        ⟨RC.ok, "No", ⟨["J X=0 Y=0"], ":A"⟩⟩ := by
  exact ⟨by decide, fun rotateProp => rfl⟩

/-- C5 counterexample: the XY-stage save-settings handler is a handler
of a shared (card-wide) property, yet entered with the hub's
propagation flag true and the save-X value it still issues the wire
command `2SS X` (and returns DEVICE_OK), so it does not return
immediately with zero commands as the claim states. -/
theorem C5_counterexample_xystage_save :
    (saveCardSettingsXYAfterSet guardPeriph ackHub true "X" "Y"
      g_SaveSettingsX).chan.cmds = ["2SS X"] ∧
    (saveCardSettingsXYAfterSet guardPeriph ackHub true "X" "Y"
      g_SaveSettingsX).rc = RC.ok := by
  decide

/-- C5 amended: the ring-buffer mode, delay and trigger handlers (and
the PMT peripheral's save-settings handler) return DEVICE_OK
immediately, with zero wire commands and zero propagation calls, when
the hub's propagation flag is true at entry to AfterSet; the XY-stage
save-settings handler has no such check and instead returns immediately
(zero commands, zero propagations) exactly for the no-action and done
sentinel values, the only values a propagation delivers. -/
theorem C5_propagation_guard :
    (∀ (p : Periph) (hub : Hub) (s : String),
      rbModeAfterSet p hub true s = ⟨RC.ok, s, Chan.empty, []⟩) ∧
    (∀ (p : Periph) (hub : Hub) (tmp : Int),
      rbDelayAfterSet p hub true tmp = ⟨RC.ok, tmp, Chan.empty, []⟩) ∧
    (∀ (p : Periph) (hub : Hub) (s : String),
      rbTriggerAfterSet p hub true s = ⟨RC.ok, s, Chan.empty, []⟩) ∧
    (∀ (p : Periph) (hub : Hub) (s : String),
      saveCardSettingsPMTAfterSet p hub true s = ⟨RC.ok, s, Chan.empty, []⟩) ∧
    (∀ (p : Periph) (hub : Hub) (updatingShared : Bool) (ax ay : String),
      saveCardSettingsXYAfterSet p hub updatingShared ax ay g_SaveSettingsOrig =
        ⟨RC.ok, g_SaveSettingsOrig, Chan.empty, []⟩ ∧
      saveCardSettingsXYAfterSet p hub updatingShared ax ay g_SaveSettingsDone =
        ⟨RC.ok, g_SaveSettingsDone, Chan.empty, []⟩) := by
  refine ⟨fun p hub s => rfl, fun p hub tmp => rfl, fun p hub s => rfl,
    fun p hub s => rfl, fun p hub u ax ay => ⟨rfl, rfl⟩⟩

/-- C7: the mixin's ring-buffer registration violates per-peripheral
property-name uniqueness: `CreateRingBufferDelayProperty` creates its
property under `g_RB_ModePropertyName`, already used by the mode
property (while its `UpdateProperty` call names the never-created
`g_RB_DelayPropertyName`); the XY-stage's own initialization registers
the same four properties under pairwise distinct names. -/
theorem C7_mixin_duplicate_property_name :
    ¬ mixinRingBufferCreatedNames.Nodup ∧
    mixinRingBufferCreatedNames.count g_RB_ModePropertyName = 2 ∧
    g_RB_ModePropertyName ≠ g_RB_DelayPropertyName ∧
    (xyStageRingBufferInit true 2 "RING BUFFER 16").createdProps.Nodup := by
  decide

/-- C8 counterexample: for the firmware define `RING BUFFER_16` the code
parses capacity 0, not 16 (the `atol` of the substring from position 11,
`_16`, stops at the underscore), and so registers no ring-buffer
properties even with firmware 2.81 and capability bit 1 set. -/
theorem C8_counterexample_underscore_define :
    ringBufferCapacityFromDefine "RING BUFFER_16" = 0 ∧
    ¬ ringBufferCapacityFromDefine "RING BUFFER_16" = 16 ∧
    (xyStageRingBufferInit true 2 "RING BUFFER_16").supported = false ∧
    (xyStageRingBufferInit true 2 "RING BUFFER_16").createdProps = [] := by
  decide

/-- C8 amended: the capacity is `atol` of the define's characters from
position 11 on, guarded by the define being longer than 12 characters; a
space-separated define `RING BUFFER 16` yields 16 and registers the five
ring-buffer properties, and registration happens exactly when the
version/capability guard holds and the parsed capacity is nonzero. -/
theorem C8_capacity_parse_and_registration :
    (∀ (fwAtLeast281 : Bool) (vAxesProps0 : Nat) (d : String),
      (xyStageRingBufferInit fwAtLeast281 vAxesProps0 d).supported =
        (fwAtLeast281 && decide (vAxesProps0 &&& BIT1 ≠ 0) &&
          decide (ringBufferCapacityFromDefine d ≠ 0))) ∧
    ringBufferCapacityFromDefine "RING BUFFER 16" = 16 ∧
    (xyStageRingBufferInit true 2 "RING BUFFER 16").supported = true ∧
    (xyStageRingBufferInit true 2 "RING BUFFER 16").createdProps =
      [g_RB_ModePropertyName, g_RB_DelayPropertyName, g_RB_TriggerPropertyName,
       g_RB_AutoplayRunningPropertyName, g_UseSequencePropertyName] := by
  refine ⟨fun fw v d => ?_, by decide, by decide, by decide⟩
  unfold xyStageRingBufferInit
  by_cases h1 : (fw && decide (v &&& BIT1 ≠ 0)) = true
  · simp only [h1, if_true]
    by_cases h2 : ringBufferCapacityFromDefine d ≠ 0
    · simp [h2]
    · simp [h2]
  · simp only [h1]
    simp only [Bool.not_eq_true] at h1
    simp [h1]

/-- C1: for every embedded property handler with the refresh-avoidance
guard, when the refresh-policy flag is false, the peripheral is
initialized and no forced-refresh marker (`justSet` /
`refreshOverride_`) is set, BeforeGet returns DEVICE_OK immediately,
issues zero commands and leaves the cached value unchanged; hence of two
consecutive gets, both (in particular the second) issue zero wire
commands. -/
theorem C1_refresh_guard (p : Periph) (hub : Hub) (ax : String) (u : ℚ)
    (curS : String) (curQ : ℚ) (curI : Int) (st : SpeedState)
    (h1 : p.refreshProps = false) (h2 : p.initialized = true)
    (h3 : st.refreshOverride = false) :
    joystickInputBeforeGet p hub ax curS = ⟨RC.ok, curS, Chan.empty⟩ ∧
    saAmplitudeBeforeGet p hub ax u curQ = ⟨RC.ok, curQ, Chan.empty⟩ ∧
    saModeBeforeGet p hub ax false curS = ⟨RC.ok, curS, false, Chan.empty⟩ ∧
    saPatternBeforeGet p hub ax curS = ⟨RC.ok, curS, Chan.empty⟩ ∧
    saClkPolBeforeGet p hub ax curS = ⟨RC.ok, curS, Chan.empty⟩ ∧
    saTTLOutBeforeGet p hub ax curS = ⟨RC.ok, curS, Chan.empty⟩ ∧
    rbModeBeforeGet p hub curS = ⟨RC.ok, curS, Chan.empty⟩ ∧
    rbDelayBeforeGet p hub curI = ⟨RC.ok, curI, Chan.empty⟩ ∧
    rbRunningBeforeGet p hub false curS = ⟨RC.ok, curS, false, Chan.empty⟩ ∧
    joystickEnabledBeforeGet p hub ax curS = ⟨RC.ok, curS, Chan.empty⟩ ∧
    joystickRotateBeforeGet p hub ax curS = ⟨RC.ok, curS, Chan.empty⟩ ∧
    joystickReverseBeforeGet p hub curS = ⟨RC.ok, curS, Chan.empty⟩ ∧
    joystickFastSpeedBeforeGet p hub curQ = ⟨RC.ok, curQ, Chan.empty⟩ ∧
    wheelFastSpeedBeforeGet p hub curQ = ⟨RC.ok, curQ, Chan.empty⟩ ∧
    wheelSlowSpeedBeforeGet p hub curQ = ⟨RC.ok, curQ, Chan.empty⟩ ∧
    wheelReverseBeforeGet p hub curS = ⟨RC.ok, curS, Chan.empty⟩ ∧
    onSpeedBeforeGet p hub ax st = (RC.ok, st, Chan.empty) ∧
    ((joystickInputBeforeGet p hub ax curS).chan.cmds = [] ∧
      (joystickInputBeforeGet p hub ax
        (joystickInputBeforeGet p hub ax curS).val).chan.cmds = []) := by
  simp [joystickInputBeforeGet, saAmplitudeBeforeGet, saModeBeforeGet,
    saPatternBeforeGet, saClkPolBeforeGet, saTTLOutBeforeGet, rbModeBeforeGet,
    rbDelayBeforeGet, rbRunningBeforeGet, joystickEnabledBeforeGet,
    joystickRotateBeforeGet, joystickReverseBeforeGet,
    joystickFastSpeedBeforeGet, wheelFastSpeedBeforeGet,
    wheelSlowSpeedBeforeGet, wheelReverseBeforeGet, onSpeedBeforeGet,
    h1, h2, h3, Chan.empty]

/-- C1 witness: at a concrete initialized peripheral with the refresh
policy off, against a hub that rejects every command, a cached read
still succeeds with no command issued, and so does the second of two
consecutive reads. -/
theorem C1_refresh_guard_witness :
    joystickInputBeforeGet guardPeriph nakHub "X" g_JSCode_0 =
      ⟨RC.ok, g_JSCode_0, Chan.empty⟩ ∧
    onSpeedBeforeGet guardPeriph nakHub "X" ⟨0, 0, 0, false⟩ =
      (RC.ok, ⟨0, 0, 0, false⟩, Chan.empty) ∧
    (joystickInputBeforeGet guardPeriph nakHub "X"
      (joystickInputBeforeGet guardPeriph nakHub "X" g_JSCode_0).val).chan.cmds = [] :=
  ⟨(C1_refresh_guard guardPeriph nakHub "X" 1 g_JSCode_0 0 0 ⟨0, 0, 0, false⟩
      rfl rfl rfl).1,
   (C1_refresh_guard guardPeriph nakHub "X" 1 g_JSCode_0 0 0 ⟨0, 0, 0, false⟩
      rfl rfl rfl).2.2.2.2.2.2.2.2.2.2.2.2.2.2.2.2.1,
   (C1_refresh_guard guardPeriph nakHub "X" 1 g_JSCode_0 0 0 ⟨0, 0, 0, false⟩
      rfl rfl rfl).2.2.2.2.2.2.2.2.2.2.2.2.2.2.2.2.2.2⟩

/-- C6: a caller-supplied value outside the registered allowed-value set
of an enumerated property is rejected with an invalid-property-value
error before any wire command is issued and with the cached value and
command history unchanged — at the binding layer for every embedded
enum registration (whatever the bound handler is), and additionally
inside the single-axis mode, single-axis pattern and ring-buffer mode
handlers themselves, whose AfterSet switches reject unknown strings
before their command is formatted. -/
theorem C6_enum_reject_before_wire :
    (∀ (nm : String) (allowed : List String) (handler : String → HOut String)
      (s cur : String), (nm, allowed) ∈ enumRegistrations →
      allowed.contains s = false →
      bindingAfterSet allowed handler s cur =
        ⟨RC.invalidPropertyValue, cur, Chan.empty⟩) ∧
    (∀ (hub : Hub) (ax : String) (justSet : Bool) (s : String),
      s ∉ [g_SAMode_0, g_SAMode_1, g_SAMode_2, g_SAMode_3] →
      saModeAfterSet hub ax justSet s =
        ⟨RC.invalidPropertyValue, s, justSet, Chan.empty⟩) ∧
    (∀ (hub : Hub) (ax s : String),
      s ∉ [g_SAPattern_0, g_SAPattern_1, g_SAPattern_2, g_SAPattern_3] →
      saPatternAfterSet hub ax s = ⟨RC.invalidPropertyValue, s, Chan.empty⟩) ∧
    (∀ (p : Periph) (hub : Hub) (s : String),
      s ∉ [g_RB_OnePoint_1, g_RB_PlayOnce_2, g_RB_PlayRepeat_3] →
      rbModeAfterSet p hub false s = ⟨RC.invalidPropertyValue, s, Chan.empty, []⟩) := by
  refine ⟨fun nm allowed handler s cur _ hs => ?_, fun hub ax j s hs => ?_,
    fun hub ax s hs => ?_, fun p hub s hs => ?_⟩
  · unfold bindingAfterSet
    rw [hs]
    rfl
  · simp only [List.mem_cons, List.not_mem_nil, or_false, not_or] at hs
    obtain ⟨h0, h1, h2, h3⟩ := hs
    simp [saModeAfterSet, h0, h1, h2, h3]
  · simp only [List.mem_cons, List.not_mem_nil, or_false, not_or] at hs
    obtain ⟨h0, h1, h2, h3⟩ := hs
    simp [saPatternAfterSet, h0, h1, h2, h3]
  · simp only [List.mem_cons, List.not_mem_nil, or_false, not_or] at hs
    obtain ⟨h0, h1, h2⟩ := hs
    simp [rbModeAfterSet, h0, h1, h2]

/-- C6 witness: the string `bogus` is outside every allowed set; both
the binding layer and the handlers reject it with no command issued. -/
theorem C6_enum_reject_before_wire_witness :
    bindingAfterSet [g_SAMode_0, g_SAMode_1, g_SAMode_2, g_SAMode_3]
      (fun s => ⟨RC.ok, s, ⟨["SAM A=0"], ":A"⟩⟩) "bogus" g_SAMode_0 =
      ⟨RC.invalidPropertyValue, g_SAMode_0, Chan.empty⟩ ∧
    saModeAfterSet ackHub "A" false "bogus" =
      ⟨RC.invalidPropertyValue, "bogus", false, Chan.empty⟩ ∧
    saPatternAfterSet ackHub "A" "bogus" =
      ⟨RC.invalidPropertyValue, "bogus", Chan.empty⟩ ∧
    rbModeAfterSet guardPeriph ackHub false "bogus" =
      ⟨RC.invalidPropertyValue, "bogus", Chan.empty, []⟩ :=
  ⟨C6_enum_reject_before_wire.1 g_SAModePropertyName _ _ "bogus" g_SAMode_0
      (by decide) (by decide),
   C6_enum_reject_before_wire.2.1 ackHub "A" false "bogus" (by decide),
   C6_enum_reject_before_wire.2.2.1 ackHub "A" "bogus" (by decide),
   C6_enum_reject_before_wire.2.2.2 guardPeriph ackHub "bogus" (by decide)⟩

/-- C4: every bitfield property sharing the `SAP` register (pattern owns
bits 0-2, TTL output owns bit 5, clock polarity bit 6, clock source bit
7) performs AfterSet as a read-modify-write: it first re-queries the
register, clears only its own bits, adds the new bits, and writes the
combination back — and for every initial 8-bit register value every bit
outside the property's own mask (in particular every bit owned by a
sibling property) is identical before and after the write. -/
theorem C4_sap_bitfield_rmw (hub : Hub) (ax : String) (n : Nat)
    (hp : strHasPrefix (":A " ++ ax ++ "=") (hub.respond ("SAP " ++ ax ++ "?")) = true)
    (hv : parseLongAfterEquals (hub.respond ("SAP " ++ ax ++ "?")) = some (n : Int)) :
    (∀ s t, (s, t) ∈ [(g_SAPattern_0, 0), (g_SAPattern_1, 1),
        (g_SAPattern_2, 2), (g_SAPattern_3, 3)] →
      (saPatternAfterSet hub ax s).chan.cmds =
        ["SAP " ++ ax ++ "?",
         "SAP " ++ ax ++ "=" ++
           toString ((t + Nat.ldiff n (BIT2 ||| BIT1 ||| BIT0) : Nat) : Int)] ∧
      ∀ j, Nat.testBit (BIT2 ||| BIT1 ||| BIT0) j = false →
        Nat.testBit (t + Nat.ldiff n (BIT2 ||| BIT1 ||| BIT0)) j = Nat.testBit n j) ∧
    (∀ s t, (s, t) ∈ [(g_SATTLOut_0, 0), (g_SATTLOut_1, BIT5)] →
      (saTTLOutAfterSet hub ax s).chan.cmds =
        ["SAP " ++ ax ++ "?",
         "SAP " ++ ax ++ "=" ++ toString ((t + Nat.ldiff n BIT5 : Nat) : Int)] ∧
      ∀ j, Nat.testBit BIT5 j = false →
        Nat.testBit (t + Nat.ldiff n BIT5) j = Nat.testBit n j) ∧
    (∀ s t, (s, t) ∈ [(g_SAClkPol_0, 0), (g_SAClkPol_1, BIT6)] →
      (saClkPolAfterSet hub ax s).chan.cmds =
        ["SAP " ++ ax ++ "?",
         "SAP " ++ ax ++ "=" ++ toString ((t + Nat.ldiff n BIT6 : Nat) : Int)] ∧
      ∀ j, Nat.testBit BIT6 j = false →
        Nat.testBit (t + Nat.ldiff n BIT6) j = Nat.testBit n j) ∧
    (∀ s t, (s, t) ∈ [(g_SAClkSrc_0, 0), (g_SAClkSrc_1, BIT7)] →
      (saClkSrcAfterSet hub ax s).chan.cmds =
        ["SAP " ++ ax ++ "?",
         "SAP " ++ ax ++ "=" ++ toString ((t + Nat.ldiff n BIT7 : Nat) : Int)] ∧
      ∀ j, Nat.testBit BIT7 j = false →
        Nat.testBit (t + Nat.ldiff n BIT7) j = Nat.testBit n j) := by
  refine ⟨fun s t hmem => ?_, fun s t hmem => ?_, fun s t hmem => ?_,
    fun s t hmem => ?_⟩ <;>
  fin_cases hmem <;>
  exact ⟨by simp [saPatternAfterSet, saTTLOutAfterSet, saClkPolAfterSet,
      saClkSrcAfterSet, g_SAPattern_0, g_SAPattern_1, g_SAPattern_2,
      g_SAPattern_3, g_SATTLOut_0, g_SATTLOut_1, g_SAClkPol_0, g_SAClkPol_1,
      g_SAClkSrc_0, g_SAClkSrc_1, queryCommandVerify, hp, hv,
      int_land_not_ofNat, Chan.empty],
    sap_preserved _ _ n (by decide)⟩

/-- C4 witness: against a stub register holding 103, enabling the TTL
output re-queries the register and writes 103 back (bit 5 was already
set), and bits 6 and 0 are unchanged by the write. -/
theorem C4_sap_bitfield_rmw_witness :
    (saTTLOutAfterSet sapHub "A" g_SATTLOut_1).chan.cmds =
      ["SAP " ++ "A" ++ "?",
       "SAP " ++ "A" ++ "=" ++ toString ((BIT5 + Nat.ldiff 103 BIT5 : Nat) : Int)] ∧
    Nat.testBit (BIT5 + Nat.ldiff 103 BIT5) 6 = Nat.testBit 103 6 ∧
    Nat.testBit (BIT5 + Nat.ldiff 103 BIT5) 0 = Nat.testBit 103 0 :=
  ⟨((C4_sap_bitfield_rmw sapHub "A" 103 (by decide) (by decide)).2.1
      g_SATTLOut_1 BIT5 (by decide)).1,
   ((C4_sap_bitfield_rmw sapHub "A" 103 (by decide) (by decide)).2.1
      g_SATTLOut_1 BIT5 (by decide)).2 6 (by decide),
   ((C4_sap_bitfield_rmw sapHub "A" 103 (by decide) (by decide)).2.1
      g_SATTLOut_1 BIT5 (by decide)).2 0 (by decide)⟩

/-- C9: the speed read-back policy is two version-gated rules of
opposite polarity — from firmware 3.27 on, `speedTruth_` is true iff the
`SPEED UNTRUTH` define is absent; before 3.27 it is true iff the
`SPEED TRUTH` define is present — and with `speedTruth_` true a
successful AfterSet of the speed property forces an immediate re-read
(via `refreshOverride_`, bypassing refresh avoidance), so the exposed
value is the hardware's answer `w` rather than the requested value `v`;
without the override, the same read would have returned from the cache
without a wire command. -/
theorem C9_speed_truth_policy (ds : List String) (p : Periph) (hub : Hub)
    (st : SpeedState) (v w : ℚ)
    (h1 : p.refreshProps = false) (h2 : p.initialized = true)
    (hset : strHasPrefix ":A" (hub.respond ("S X=" ++ toString v)) = true)
    (hq : strHasPrefix ":A X=" (hub.respond "S X?") = true)
    (hw : parseRatAfterEquals (hub.respond "S X?") = some w) :
    (computeSpeedTruth true ds = true ↔ "SPEED UNTRUTH" ∉ ds) ∧
    (computeSpeedTruth false ds = true ↔ "SPEED TRUTH" ∈ ds) ∧
    onSpeedAfterSet p hub "X" true st v =
      (RC.ok, ⟨w, w, w * 1000, false⟩,
        ⟨["S X=" ++ toString v, "S X?"], hub.respond "S X?"⟩) ∧
    onSpeedBeforeGet p hub "X" { st with refreshOverride := false } =
      (RC.ok, { st with refreshOverride := false }, Chan.empty) := by
  refine ⟨?_, ?_, ?_, ?_⟩
  · simp [computeSpeedTruth, isDefinePresent]
  · simp [computeSpeedTruth, isDefinePresent]
  · simp [onSpeedAfterSet, onSpeedBeforeGet, queryCommandVerify, hset, hq, hw,
      h1, h2, Chan.empty]
  · simp [onSpeedBeforeGet, h1, h2, Chan.empty]

/-- C9 witness: firmware with the `SPEED TRUTH` define, and a hub that
answers the speed query with 5.7; setting the speed to 6 issues the set
command, then the forced re-read, and exposes 5.7. -/
theorem C9_speed_truth_policy_witness :
    computeSpeedTruth false ["SPEED TRUTH"] = true ∧
    onSpeedAfterSet guardPeriph speedTruthHub "X" true ⟨0, 0, 0, false⟩ 6 =
      (RC.ok, ⟨57/10, 57/10, 57/10 * 1000, false⟩,
        ⟨["S X=" ++ toString (6 : ℚ), "S X?"], speedTruthHub.respond "S X?"⟩) :=
  ⟨(C9_speed_truth_policy ["SPEED TRUTH"] guardPeriph speedTruthHub
      ⟨0, 0, 0, false⟩ 6 (57/10) rfl rfl rfl rfl (by
        rw [show parseRatAfterEquals (speedTruthHub.respond "S X?") =
          some ((5 : ℚ) + 7 / 10 ^ 1) from rfl]
        norm_num)).2.1.mpr (by decide),
   (C9_speed_truth_policy ["SPEED TRUTH"] guardPeriph speedTruthHub
      ⟨0, 0, 0, false⟩ 6 (57/10) rfl rfl rfl rfl (by
        rw [show parseRatAfterEquals (speedTruthHub.respond "S X?") =
          some ((5 : ℚ) + 7 / 10 ^ 1) from rfl]
        norm_num)).2.2.1⟩

/-- C10: the joystick-fast, wheel-fast and wheel-slow speed BeforeGet
paths store the absolute value of the parsed hardware speed, so the
exposed value is non-negative for every hardware answer, including a
negative mirrored speed; the mirrored sign is observable only through
the separate Reverse properties, whose BeforeGet maps a negative queried
speed to `Yes`. -/
theorem C10_speed_abs_nonneg (p : Periph) (hub : Hub) (tX tF tT : ℚ)
    (curQ : ℚ) (curS : String)
    (hr : p.refreshProps = true)
    (hpX : strHasPrefix ":A X=" (hub.respond (p.addressChar ++ "JS X?")) = true)
    (hvX : parseRatAfterEquals (hub.respond (p.addressChar ++ "JS X?")) = some tX)
    (hpF : strHasPrefix ":A F=" (hub.respond (p.addressChar ++ "JS F?")) = true)
    (hvF : parseRatAfterEquals (hub.respond (p.addressChar ++ "JS F?")) = some tF)
    (hpT : strHasPrefix ":A T=" (hub.respond (p.addressChar ++ "JS T?")) = true)
    (hvT : parseRatAfterEquals (hub.respond (p.addressChar ++ "JS T?")) = some tT) :
    (joystickFastSpeedBeforeGet p hub curQ).val = |tX| ∧
    0 ≤ (joystickFastSpeedBeforeGet p hub curQ).val ∧
    (wheelFastSpeedBeforeGet p hub curQ).val = |tF| ∧
    0 ≤ (wheelFastSpeedBeforeGet p hub curQ).val ∧
    (wheelSlowSpeedBeforeGet p hub curQ).val = |tT| ∧
    0 ≤ (wheelSlowSpeedBeforeGet p hub curQ).val ∧
    (joystickReverseBeforeGet p hub curS).val = (if tX < 0 then "Yes" else "No") ∧
    (wheelReverseBeforeGet p hub curS).val = (if tF < 0 then "Yes" else "No") := by
  refine ⟨?_, ?_, ?_, ?_, ?_, ?_, ?_, ?_⟩ <;>
    simp [joystickFastSpeedBeforeGet, wheelFastSpeedBeforeGet,
      wheelSlowSpeedBeforeGet, joystickReverseBeforeGet, wheelReverseBeforeGet,
      queryCommandVerify, hr, hpX, hvX, hpF, hvF, hpT, hvT, abs_nonneg]

/-- C10 witness: against a hub reporting mirrored speeds -50.5, -3 and
-2.5, the exposed speed properties read 50.5, 3 and 2.5 and the
joystick Reverse property reads `Yes`. -/
theorem C10_speed_abs_nonneg_witness :
    (joystickFastSpeedBeforeGet refreshPeriph speedMirrorHub 0).val = 101/2 ∧
    (wheelFastSpeedBeforeGet refreshPeriph speedMirrorHub 0).val = 3 ∧
    (wheelSlowSpeedBeforeGet refreshPeriph speedMirrorHub 0).val = 5/2 ∧
    (joystickReverseBeforeGet refreshPeriph speedMirrorHub "No").val = "Yes" := by
  have h := C10_speed_abs_nonneg refreshPeriph speedMirrorHub
    (-(101/2)) (-3) (-(5/2)) 0 "No" rfl
    rfl
    (by
      rw [show parseRatAfterEquals (speedMirrorHub.respond
        (refreshPeriph.addressChar ++ "JS X?")) =
        some (-((50 : ℚ) + 5 / 10 ^ 1)) from rfl]
      norm_num)
    rfl
    rfl
    rfl
    (by
      rw [show parseRatAfterEquals (speedMirrorHub.respond
        (refreshPeriph.addressChar ++ "JS T?")) =
        some (-((2 : ℚ) + 5 / 10 ^ 1)) from rfl]
      norm_num)
  refine ⟨?_, ?_, ?_, ?_⟩
  · rw [h.1]; norm_num
  · rw [h.2.2.1]; norm_num
  · rw [h.2.2.2.2.1]; norm_num
  · rw [h.2.2.2.2.2.2.1]; norm_num

end ASITiger
